import Mathlib

/-!
Shallow embedding of the data layer of the Smart Vehicle Service System
(src/app.py, src/pages/customer/booking.py) and proofs of the frozen
claims about it.

Modelling conventions:
- SQLite rows become Lean structures; a table is a `List` of rows, in
  insertion order (SQLite `SELECT *` without `ORDER BY` is modelled as
  that order, and every claim is insensitive to it).
- `REAL` price columns are modelled as `Rat`: no claim depends on
  floating-point rounding, only on values being stored and compared.
- `TIMESTAMP`/`CURRENT_TIMESTAMP` columns (`last_updated`, history
  `timestamp`, user `created_at`) are omitted: no claim mentions them.
- Identifiers produced from the wall clock or a random generator
  (`uuid.uuid4()`, the `BK...` timestamp id) are passed as explicit
  arguments to the operation that generates them.
- A `PRIMARY KEY`/`NOT NULL` violation raises in Python and is caught by
  the surrounding handler; it is modelled as the failing branch of the
  operation, with the store left unchanged.
-/

/-! ## Inventory store (`inventory.db`, `init_inventory_db` in src/app.py) -/

/-- A row of the `inventory` table (src/app.py, `init_inventory_db`).
The `last_updated` timestamp column is omitted (see module comment). -/
structure InventoryItem where
  id : Nat
  name : String
  category : String
  quantity : Int
  price : Rat
  min_stock : Int
  description : String
  status : String
deriving DecidableEq

/-- A row of the `inventory_history` table. Columns not named by an
`INSERT` are NULL in SQLite, hence the `Option` types. -/
structure InventoryHistoryEntry where
  inventory_id : Nat
  action : String
  old_quantity : Option Int
  new_quantity : Option Int
  old_price : Option Rat
  new_price : Option Rat
deriving DecidableEq

/-- The state of `inventory.db`: both tables plus the AUTOINCREMENT
counter for `inventory.id` (SQLite starts at 1 and never reuses). -/
structure InventoryDB where
  items : List InventoryItem
  history : List InventoryHistoryEntry
  nextId : Nat
deriving DecidableEq

/-- A freshly initialised inventory store. -/
def emptyInventoryDB : InventoryDB := ⟨[], [], 1⟩

/-- A candidate row of an uploaded CSV, after the pandas numeric
coercion of `validate_inventory_csv` (src/app.py:330). A missing
`name`/`category` cell (pandas NaN, inserted as SQL NULL) is `none`.
`pd.to_numeric` maps a missing numeric cell to NaN without raising, so
`quantity` and `min_stock` are `Option Int` with `none` for NaN: such a
cell passes validation (`NaN < 0` is false, nullness is checked only
for name and category) and then raises in `int()` inside the import
loop. A NaN `price` cell raises nowhere (`float(NaN)` is NaN, which
SQLite stores as NULL) and no claim depends on the price column, so
`price` is modelled as numeric. A cell that is not numeric at all makes
`pd.to_numeric` raise, rejecting the whole batch before this typed
representation arises. Fractional numeric cells are truncated by the
same `int()` at every use, so integer cells lose no distinction any
claim depends on. The `description` column default of `row.get` is
folded into the field. -/
structure CsvRow where
  name : Option String
  category : Option String
  quantity : Option Int
  price : Rat
  min_stock : Option Int
  description : String
deriving DecidableEq

/-- src/app.py:330 `validate_inventory_csv`: the negative-value check and
the empty `name`/`category` check, in source order. A NaN numeric cell
passes the negative check (`NaN < 0` is false in pandas, modelled by
`Option.any` on `none`) and the nullness check covers only `name` and
`category`, exactly as in the source. The missing-column and
numeric-parse checks of the source act on the raw frame and are
discharged by the typed `CsvRow` representation. -/
def validate_inventory_csv (df : List CsvRow) : Bool × String :=
  if df.any (fun r => r.quantity.any (fun q => decide (q < 0))) ||
      df.any (fun r => decide (r.price < 0)) ||
      df.any (fun r => r.min_stock.any (fun q => decide (q < 0))) then
    (false, "Negative values found in quantity, price, or min_stock columns")
  else if df.any (fun r => decide (r.name = none)) ||
      df.any (fun r => decide (r.category = none)) then
    (false, "Empty values found in name or category columns")
  else
    (true, "CSV validation successful")

/-- src/app.py:368 status rule used by the bulk-import insert:
`'In Stock' if int(row['quantity']) > 0 else 'Out of Stock'`. -/
def derived_status (quantity : Int) : String :=
  if quantity > 0 then "In Stock" else "Out of Stock"

/-- Aggregate result of a bulk import (src/app.py:358). -/
structure ImportResult where
  success_count : Nat
  error_count : Nat
  errors : List String
deriving DecidableEq

/-- src/app.py:358 `import_inventory_from_csv`: the per-row loop. Each
row inserts into `inventory` (status derived from quantity) and appends
an `ADD` history row whose `old_*` columns are NULL. A row can fail in
two ways, both caught per row, counted in `error_count`, recorded in
`errors`, and skipped while the loop continues: a NaN `quantity` or
`min_stock` cell raises in `int()` while the INSERT parameters are
built (src/app.py:379, 381), and a NULL `name` or `category` violates
the NOT NULL constraint at the INSERT itself. The recorded message text
(source: name of the row plus the exception text) is abstracted to a
fixed string. -/
def import_inventory_from_csv (db : InventoryDB) (df : List CsvRow) :
    InventoryDB × ImportResult :=
  match df with
  | [] => (db, ⟨0, 0, []⟩)
  | r :: rest =>
    match r.name, r.category, r.quantity, r.min_stock with
    | some nm, some cat, some q, some ms =>
      let db1 : InventoryDB :=
        { items := db.items ++
            [⟨db.nextId, nm, cat, q, r.price, ms,
              r.description, derived_status q⟩],
          history := db.history ++
            [⟨db.nextId, "ADD", none, some q, none, some r.price⟩],
          nextId := db.nextId + 1 }
      let out := import_inventory_from_csv db1 rest
      (out.1, ⟨out.2.success_count + 1, out.2.error_count, out.2.errors⟩)
    | _, _, _, _ =>
      let out := import_inventory_from_csv db rest
      (out.1, ⟨out.2.success_count, out.2.error_count + 1,
        ("Error importing row") :: out.2.errors⟩)

/-- A row the import loop can insert: name and category present (NOT
NULL columns) and quantity and min_stock numeric rather than NaN
(`int()` raises on NaN). -/
def row_importable (r : CsvRow) : Bool :=
  r.name.isSome && r.category.isSome && r.quantity.isSome && r.min_stock.isSome

/-- Outcome of the bulk-import pipeline as driven by the admin dashboard. -/
inductive BulkOutcome where
  | rejected (message : String)
  | imported (result : ImportResult)
deriving DecidableEq

/-- src/app.py:491-495 (`show_admin_dashboard`, Add Items tab): the CSV
is validated first; only a batch that passes validation reaches
`import_inventory_from_csv`, otherwise the whole batch is rejected with
the validation message and nothing is written. -/
def bulk_import (db : InventoryDB) (df : List CsvRow) : InventoryDB × BulkOutcome :=
  let v := validate_inventory_csv df
  if v.1 then
    let out := import_inventory_from_csv db df
    (out.1, BulkOutcome.imported out.2)
  else
    (db, BulkOutcome.rejected v.2)

/-- src/app.py:536-566 (`show_admin_dashboard`, Add Single Item form):
name and category are required; the admin-selected `status` value from
the form selectbox is inserted verbatim; an `ADD` history row is
appended. The form widgets enforce `quantity ≥ 0`, `price ≥ 0`,
`min_stock ≥ 0` before submission. -/
def add_single_item (db : InventoryDB) (item_name category : String)
    (quantity : Int) (price : Rat) (min_stock : Int)
    (description status : String) : InventoryDB × Bool :=
  if item_name = "" ∨ category = "" then (db, false)
  else
    ({ items := db.items ++
         [⟨db.nextId, item_name, category, quantity, price, min_stock,
           description, status⟩],
       history := db.history ++
         [⟨db.nextId, "ADD", none, some quantity, none, some price⟩],
       nextId := db.nextId + 1 }, true)

/-- src/app.py:293 `delete_inventory_item`: fetch the row; if present,
append a `DELETE` history row (old values = prior values, new values =
0) and then delete the row; otherwise report "Item not found" and leave
the store unchanged. -/
def delete_inventory_item (db : InventoryDB) (item_id : Nat) :
    InventoryDB × Bool × String :=
  match db.items.find? (fun it => decide (it.id = item_id)) with
  | some item =>
    ({ items := db.items.filter (fun it => decide (¬ it.id = item_id)),
       history := db.history ++
         [⟨item_id, "DELETE", some item.quantity, some 0, some item.price, some 0⟩],
       nextId := db.nextId }, true, "Item deleted successfully")
  | none => (db, false, "Item not found")

/-- src/app.py:3354 `clear_inventory`: `DELETE FROM inventory_history`
first (the foreign key points at `inventory`), then
`DELETE FROM inventory`. SQLite DELETE does not reset the AUTOINCREMENT
sequence. -/
def clear_inventory (db : InventoryDB) : InventoryDB × Bool × String :=
  let db1 : InventoryDB := { db with history := [] }
  let db2 : InventoryDB := { db1 with items := [] }
  (db2, true, "Inventory cleared successfully")

/-! ## Bookings store (`vehicle_service.db`, table `bookings`, src/app.py `init_db`) -/

/-- A row of the `bookings` table. DATE and TIMESTAMP parameters are
bound by the sqlite3 driver as ISO `YYYY-MM-DD` text, so dates are
modelled as strings under lexicographic order (which agrees with
chronological order on that format). Nullable columns are `Option`. -/
structure Booking where
  booking_id : String
  customer_name : String
  vehicle_type : String
  vehicle_number : String
  service_type : String
  booking_date : String
  time_slot : String
  status : String
  description : String
  last_service_date : Option String
  last_service_km : Option Int
  service_items : Option String
  additional_notes : Option String
deriving DecidableEq

/-- src/pages/customer/booking.py:99-103: the
`SELECT COUNT(*) FROM bookings WHERE booking_date=? AND time_slot=?`
query. -/
def slot_count (bs : List Booking) (date time_slot : String) : Nat :=
  (bs.filter (fun b => decide (b.booking_date = date ∧ b.time_slot = time_slot))).length

/-- src/pages/customer/booking.py:106-109: the remaining-capacity figure
the page computes from the count; the page shows this number when it is
positive. Capacity is the literal 3. -/
def check_slot_availability (bs : List Booking) (date time_slot : String) : Int :=
  3 - (slot_count bs date time_slot : Int)

/-- src/pages/customer/booking.py:106: the `slot_count >= 3` test that
selects the fully-booked error message. -/
def slot_fully_booked (bs : List Booking) (date time_slot : String) : Bool :=
  decide (3 ≤ slot_count bs date time_slot)

/-- src/pages/customer/booking.py:122-147 (`show_booking_form` submit
branch): the required-field check (`date` and `time_slot` always come
from widgets and cannot be empty, so only the three free inputs are
modelled), then INSERT with the literal status `"Pending"` and the
selected services joined by a comma-space; the columns not named in the
INSERT are NULL. `generated_id` stands for the
`BK + timestamp` identifier built at submit time; a duplicate violates
the `booking_id` PRIMARY KEY, the exception is caught, and nothing is
stored. -/
def submit_booking_form (bs : List Booking)
    (generated_id customer_name vehicle_type vehicle_number : String)
    (service_type : List String) (booking_date time_slot problem_description : String) :
    List Booking × Bool :=
  if customer_name = "" ∨ vehicle_number = "" ∨ service_type = [] then (bs, false)
  else if bs.any (fun b => decide (b.booking_id = generated_id)) then (bs, false)
  else
    (bs ++ [⟨generated_id, customer_name, vehicle_type, vehicle_number,
      String.intercalate (", ") service_type, booking_date, time_slot,
      ("Pending"), problem_description, none, none, none, none⟩], true)

/-- src/app.py:1717-1755 (`show_car_service_form` submit branch): INSERT
of all thirteen columns with vehicle type `Car`, the literal status
`Pending`, the service items joined by a bare comma when the list is
nonempty and NULL otherwise. `generated_id` stands for `uuid.uuid4()`;
a duplicate violates the PRIMARY KEY and the handler leaves the store
unchanged. -/
def submit_car_booking (bs : List Booking)
    (generated_id customer_name vehicle_number service_type : String)
    (booking_date time_slot service_description : String)
    (last_service_date : Option String) (last_service_km : Option Int)
    (service_items : List String) (additional_notes : String) :
    List Booking × Bool :=
  if bs.any (fun b => decide (b.booking_id = generated_id)) then (bs, false)
  else
    (bs ++ [⟨generated_id, customer_name, ("Car"), vehicle_number, service_type,
      booking_date, time_slot, ("Pending"), service_description,
      last_service_date, last_service_km,
      (if service_items = [] then none
       else some (String.intercalate (",") service_items)),
      some additional_notes⟩], true)

/-- src/app.py:1869-1893 (`show_bike_service_form` submit branch): same
INSERT as the car form with vehicle type `Motorcycle`. -/
def submit_bike_booking (bs : List Booking)
    (generated_id customer_name vehicle_number service_type : String)
    (booking_date time_slot service_description : String)
    (last_service_date : Option String) (last_service_km : Option Int)
    (service_items : List String) (additional_notes : String) :
    List Booking × Bool :=
  if bs.any (fun b => decide (b.booking_id = generated_id)) then (bs, false)
  else
    (bs ++ [⟨generated_id, customer_name, ("Motorcycle"), vehicle_number, service_type,
      booking_date, time_slot, ("Pending"), service_description,
      last_service_date, last_service_km,
      (if service_items = [] then none
       else some (String.intercalate (",") service_items)),
      some additional_notes⟩], true)

/-- src/app.py:954-958 and src/app.py:3444-3448: the status update is
`UPDATE bookings SET status = ? WHERE booking_id = ?` followed
unconditionally by a success message; an id matching no row updates
nothing and still reports success. -/
def set_booking_status (bs : List Booking) (booking_id new_status : String) :
    List Booking × Bool × String :=
  (bs.map (fun b => if b.booking_id = booking_id then { b with status := new_status } else b),
   true, "Booking status updated successfully!")

/-- src/app.py:1199-1208: the `CASE` expression of the `ORDER BY`. A
status outside the four known ones yields SQL NULL, which sorts before
every value in ascending order; rank 0 models that. -/
def status_rank (status : String) : Nat :=
  if status = "In Progress" then 1
  else if status = "Pending" then 2
  else if status = "Completed" then 3
  else if status = "Cancelled" then 4
  else 0

/-- The order imposed by `ORDER BY CASE ... END, booking_date DESC`
(src/app.py:1197-1211): ascending status rank, ties broken by descending
booking date. -/
def booking_order (a b : Booking) : Prop :=
  status_rank a.status < status_rank b.status ∨
    (status_rank a.status = status_rank b.status ∧ b.booking_date ≤ a.booking_date)

instance : DecidableRel booking_order := fun a b =>
  decidable_of_iff
    (status_rank a.status < status_rank b.status ∨
      (status_rank a.status = status_rank b.status ∧ b.booking_date ≤ a.booking_date))
    Iff.rfl

/-- src/app.py:1197-1214 (`show_booking_history`): `SELECT * FROM
bookings WHERE customer_name=? ORDER BY CASE ... END, booking_date
DESC`. SQL filtering then ordering is modelled as filter then sort by
`booking_order`. -/
def list_by_customer (bs : List Booking) (customer_name : String) : List Booking :=
  List.insertionSort booking_order
    (bs.filter (fun b => decide (b.customer_name = customer_name)))

/-! ## Identity store (`vehicle_service.db`, table `users`) -/

/-- A row of the `users` table; `created_at` omitted (see module
comment). The `password` column stores the digest, never the plain
password. -/
structure User where
  user_id : String
  username : String
  password : String
  role : String
  email : Option String
deriving DecidableEq

/-- src/app.py:3463 `hash_password` computes
`hashlib.sha256(password.encode()).hexdigest()`. The digest itself is a
library primitive outside the repository; it is modelled as an abstract
deterministic tagging of the input, since no claim depends on the value
of the digest, only on what is stored being a function of the password. -/
def hash_password (password : String) : String :=
  ("sha256:") ++ password

/-- src/app.py:3471 `register_user`: reject an existing username, then
(when an email is supplied) an existing email, then insert the new row
with the hashed password. `generated_user_id` stands for
`uuid.uuid4()`. -/
def register_user (users : List User)
    (generated_user_id username password role : String) (email : Option String) :
    List User × Bool × String :=
  if users.any (fun u => decide (u.username = username)) then
    (users, false, "Username already exists")
  else if (match email with
    | some e => users.any (fun u => decide (u.email = some e))
    | none => false) then
    (users, false, "Email already registered")
  else
    (users ++ [⟨generated_user_id, username, hash_password password, role, email⟩],
     true, "User registered successfully")

/-! ## Concrete stores and rows used by witnesses and counterexamples -/

/-- A well-formed CSV row (positive quantity). -/
def csvRowValid : CsvRow :=
  ⟨some ("Oil Filter"), some ("Filters"), some 10, 5, some 2, ""⟩

/-- A CSV row with a negative quantity. -/
def csvRowNegativeQty : CsvRow :=
  ⟨some ("Brake Pad"), some ("Brake Parts"), some (-1), 7, some 1, ""⟩

/-- A well-formed CSV row with quantity zero. -/
def csvRowZeroQty : CsvRow :=
  ⟨some ("Coolant"), some ("Fluids"), some 0, 12, some 3, ""⟩

/-- A CSV row whose quantity cell is NaN (empty cell): it passes
validation but fails in `int()` inside the import loop. -/
def csvRowNanQty : CsvRow :=
  ⟨some ("Air Filter"), some ("Filters"), none, 3, some 1, ""⟩

/-- An inventory store holding a single item with id 1. -/
def stockedDB : InventoryDB :=
  ⟨[⟨1, "Oil Filter", "Filters", 4, 250, 2, "", "In Stock"⟩], [], 2⟩

/-- A booking unrelated to the ids used against it in C2. -/
def bookingOther : Booking :=
  ⟨"B9", "Ravi", "Car", "KA05", "General Service", "2024-06-10", "09:00 AM",
   "Pending", "", none, none, none, none⟩

/-- Bookings of one customer created in the order Completed, Pending,
In Progress, Cancelled (the scenario of the spec). -/
def historyBookings : List Booking :=
  [⟨"B1", "Asha", "Car", "KA01", "Oil Change", "2024-06-01", "09:00 AM",
    "Completed", "", none, none, none, none⟩,
   ⟨"B2", "Asha", "Car", "KA01", "Oil Change", "2024-06-02", "10:00 AM",
    "Pending", "", none, none, none, none⟩,
   ⟨"B3", "Asha", "Car", "KA01", "Oil Change", "2024-06-03", "11:00 AM",
    "In Progress", "", none, none, none, none⟩,
   ⟨"B4", "Asha", "Car", "KA01", "Oil Change", "2024-06-04", "12:00 PM",
    "Cancelled", "", none, none, none, none⟩]

/-- Three bookings holding the same `(date, time_slot)` pair: the slot at
its capacity. -/
def threeSlotBookings : List Booking :=
  [⟨"BK1", "Asha", "Car", "KA01", "Oil Change", "2024-06-15", "09:00 AM",
    "Pending", "", none, none, none, none⟩,
   ⟨"BK2", "Ravi", "Car", "KA02", "Brake Service", "2024-06-15", "09:00 AM",
    "Pending", "", none, none, none, none⟩,
   ⟨"BK3", "Mira", "Bike", "KA03", "General Service", "2024-06-15", "09:00 AM",
    "Pending", "", none, none, none, none⟩]

/-- The identity-store row produced by registering alice. -/
def aliceUser : User := ⟨"u1", "alice", hash_password ("pw"), "customer", none⟩

/-! ## Order instances for the booking sort -/

instance : IsTotal Booking booking_order := ⟨fun a b => by
  unfold booking_order
  rcases Nat.lt_trichotomy (status_rank a.status) (status_rank b.status) with h | h | h
  · exact Or.inl (Or.inl h)
  · rcases le_total b.booking_date a.booking_date with hd | hd
    · exact Or.inl (Or.inr ⟨h, hd⟩)
    · exact Or.inr (Or.inr ⟨h.symm, hd⟩)
  · exact Or.inr (Or.inl h)⟩

instance : IsTrans Booking booking_order := ⟨fun a b c hab hbc => by
  unfold booking_order at hab hbc ⊢
  rcases hab with h1 | h1 <;> rcases hbc with h2 | h2
  · exact Or.inl (by omega)
  · obtain ⟨h2a, h2b⟩ := h2
    exact Or.inl (by omega)
  · obtain ⟨h1a, h1b⟩ := h1
    exact Or.inl (by omega)
  · obtain ⟨h1a, h1b⟩ := h1
    obtain ⟨h2a, h2b⟩ := h2
    exact Or.inr ⟨by omega, le_trans h2b h1b⟩⟩

/-! ## Helper lemmas -/

/-- A row the import loop cannot insert is skipped: the store is as
after the remaining rows alone, the success count is unchanged, and one
error is counted and recorded. -/
theorem import_skip_row (db : InventoryDB) (r : CsvRow) (rest : List CsvRow)
    (hr : row_importable r = false) :
    (import_inventory_from_csv db (r :: rest)).1 =
      (import_inventory_from_csv db rest).1 ∧
    (import_inventory_from_csv db (r :: rest)).2.success_count =
      (import_inventory_from_csv db rest).2.success_count ∧
    (import_inventory_from_csv db (r :: rest)).2.error_count =
      (import_inventory_from_csv db rest).2.error_count + 1 ∧
    (import_inventory_from_csv db (r :: rest)).2.errors =
      ("Error importing row") :: (import_inventory_from_csv db rest).2.errors := by
  cases hn : r.name <;> cases hc : r.category <;>
    cases hq : r.quantity <;> cases hm : r.min_stock <;>
    simp_all [import_inventory_from_csv, row_importable]

/-- The success count of the import loop is the number of importable
rows, and the error count and the number of recorded messages are the
number of non-importable rows. -/
theorem import_counts (df : List CsvRow) (db : InventoryDB) :
    (import_inventory_from_csv db df).2.success_count =
      (df.filter row_importable).length ∧
    (import_inventory_from_csv db df).2.error_count =
      (df.filter (fun r => ! row_importable r)).length ∧
    (import_inventory_from_csv db df).2.errors.length =
      (df.filter (fun r => ! row_importable r)).length := by
  induction df generalizing db with
  | nil => exact ⟨rfl, rfl, rfl⟩
  | cons r rest ih =>
    cases hr : row_importable r with
    | false =>
      obtain ⟨e1, e2, e3, e4⟩ := import_skip_row db r rest hr
      obtain ⟨iha, ihb, ihc⟩ := ih db
      refine ⟨?_, ?_, ?_⟩
      · rw [e2, iha]
        simp [List.filter_cons, hr]
      · rw [e3, ihb]
        simp [List.filter_cons, hr]
      · rw [e4]
        simp [List.filter_cons, hr, ihc]
    | true =>
      have h' := hr
      simp only [row_importable, Bool.and_eq_true, Option.isSome_iff_exists] at h'
      obtain ⟨⟨⟨⟨nm, hn⟩, ⟨cat, hc⟩⟩, ⟨q, hq⟩⟩, ⟨ms, hm⟩⟩ := h'
      refine ⟨?_, ?_, ?_⟩ <;>
        simp [import_inventory_from_csv, hn, hc, hq, hm, List.filter_cons, hr, ih]

/-- The import loop only ever appends to the items table; every appended
item carries the quantity of some row of the batch together with the
status derived from that quantity, and exactly the importable rows are
appended. -/
theorem import_items_structure (df : List CsvRow) (db : InventoryDB) :
    ∃ new : List InventoryItem,
      (import_inventory_from_csv db df).1.items = db.items ++ new ∧
      (∀ it ∈ new, ∃ r ∈ df, ∃ q : Int, r.quantity = some q ∧
        it.quantity = q ∧ it.status = derived_status q) ∧
      new.length = (df.filter row_importable).length := by
  induction df generalizing db with
  | nil => exact ⟨[], by simp [import_inventory_from_csv], by simp, by simp⟩
  | cons r rest ih =>
    cases hr : row_importable r with
    | false =>
      obtain ⟨e1, e2, e3, e4⟩ := import_skip_row db r rest hr
      obtain ⟨new, h1, h2, h3⟩ := ih db
      refine ⟨new, ?_, ?_, ?_⟩
      · rw [e1, h1]
      · intro it hit
        obtain ⟨x, hx, q2, hq2, ha, hb⟩ := h2 it hit
        exact ⟨x, List.mem_cons_of_mem r hx, q2, hq2, ha, hb⟩
      · rw [h3]
        simp [List.filter_cons, hr]
    | true =>
      have h' := hr
      simp only [row_importable, Bool.and_eq_true, Option.isSome_iff_exists] at h'
      obtain ⟨⟨⟨⟨nm, hn⟩, ⟨cat, hc⟩⟩, ⟨q, hq⟩⟩, ⟨ms, hm⟩⟩ := h'
      obtain ⟨new, h1, h2, h3⟩ := ih
        { items := db.items ++
            [⟨db.nextId, nm, cat, q, r.price, ms,
              r.description, derived_status q⟩],
          history := db.history ++
            [⟨db.nextId, "ADD", none, some q, none, some r.price⟩],
          nextId := db.nextId + 1 }
      refine ⟨⟨db.nextId, nm, cat, q, r.price, ms,
        r.description, derived_status q⟩ :: new, ?_, ?_, ?_⟩
      · simp only [import_inventory_from_csv, hn, hc, hq, hm]
        rw [h1]
        simp
      · intro it hit
        rcases List.mem_cons.mp hit with rfl | hit2
        · exact ⟨r, List.mem_cons_self r rest, q, hq, rfl, rfl⟩
        · obtain ⟨x, hx, q2, hq2, ha, hb⟩ := h2 it hit2
          exact ⟨x, List.mem_cons_of_mem r hx, q2, hq2, ha, hb⟩
      · simp [List.filter_cons, hr, h3]

/-- The customer booking form on fresh inputs: the guard passes and one
row is appended. -/
theorem submit_booking_form_eq (bs : List Booking)
    (gid cn vt vn : String) (sts : List String) (d ts pd : String)
    (h1 : ¬ cn = "") (h2 : ¬ vn = "") (h3 : ¬ sts = ([] : List String))
    (hfresh : ∀ b ∈ bs, ¬ b.booking_id = gid) :
    submit_booking_form bs gid cn vt vn sts d ts pd =
      (bs ++ [⟨gid, cn, vt, vn, String.intercalate (", ") sts, d, ts,
        ("Pending"), pd, none, none, none, none⟩], true) := by
  have hany : bs.any (fun b => decide (b.booking_id = gid)) = false := by
    rw [List.any_eq_false]
    intro b hb
    simpa using hfresh b hb
  simp [submit_booking_form, hany, h1, h2, h3]

/-- The car service form on a fresh id: one row with vehicle type `Car`
is appended. -/
theorem submit_car_booking_eq (bs : List Booking)
    (gid cn vn st d ts sd : String) (lsd : Option String) (lsk : Option Int)
    (si : List String) (an : String)
    (hfresh : ∀ b ∈ bs, ¬ b.booking_id = gid) :
    submit_car_booking bs gid cn vn st d ts sd lsd lsk si an =
      (bs ++ [⟨gid, cn, ("Car"), vn, st, d, ts, ("Pending"), sd, lsd, lsk,
        (if si = ([] : List String) then none
         else some (String.intercalate (",") si)), some an⟩], true) := by
  have hany : bs.any (fun b => decide (b.booking_id = gid)) = false := by
    rw [List.any_eq_false]
    intro b hb
    simpa using hfresh b hb
  simp [submit_car_booking, hany]

/-- The bike service form on a fresh id: one row with vehicle type
`Motorcycle` is appended. -/
theorem submit_bike_booking_eq (bs : List Booking)
    (gid cn vn st d ts sd : String) (lsd : Option String) (lsk : Option Int)
    (si : List String) (an : String)
    (hfresh : ∀ b ∈ bs, ¬ b.booking_id = gid) :
    submit_bike_booking bs gid cn vn st d ts sd lsd lsk si an =
      (bs ++ [⟨gid, cn, ("Motorcycle"), vn, st, d, ts, ("Pending"), sd, lsd, lsk,
        (if si = ([] : List String) then none
         else some (String.intercalate (",") si)), some an⟩], true) := by
  have hany : bs.any (fun b => decide (b.booking_id = gid)) = false := by
    rw [List.any_eq_false]
    intro b hb
    simpa using hfresh b hb
  simp [submit_bike_booking, hany]

/-! ## Claims -/

/-- C1, counterexample: a two-row batch whose second row has quantity
-1 is rejected in full by the validation step of the bulk-import
pipeline: no success/error counts are produced and the valid first row
is not committed, contradicting the claimed
`success_count = 1, error_count = 1` partial outcome. -/
theorem bulk_import_negative_counterexample :
    bulk_import emptyInventoryDB [csvRowValid, csvRowNegativeQty] =
      (emptyInventoryDB, BulkOutcome.rejected
        ("Negative values found in quantity, price, or min_stock columns")) ∧
    (bulk_import emptyInventoryDB [csvRowValid, csvRowNegativeQty]).1.items = [] := by
  decide

/-- C1 (amended): a batch containing a row with a negative quantity is
rejected as a whole by `validate_inventory_csv` before any row is
written, with no counts produced; the claimed
`success_count = N-1`/`error_count = 1` outcome with the N-1 valid rows
committed arises exactly when the one bad row passes validation but
fails inside the import loop, as a row with a NaN quantity or min_stock
cell does: on a batch of N-1 importable rows and one non-importable row
the import loop reports `success_count = N-1`, `error_count = 1` with
one recorded message and appends exactly N-1 items. -/
theorem bulk_import_negative_rejects_whole_batch
    (db : InventoryDB) (df : List CsvRow)
    (hneg : ∃ r ∈ df, ∃ q : Int, r.quantity = some q ∧ q < 0)
    (db2 : InventoryDB) (pre post : List CsvRow) (rbad : CsvRow)
    (hok : ∀ r ∈ pre ++ post, row_importable r = true)
    (hbad : row_importable rbad = false) :
    bulk_import db df =
      (db, BulkOutcome.rejected
        ("Negative values found in quantity, price, or min_stock columns")) ∧
    (import_inventory_from_csv db2 (pre ++ rbad :: post)).2.success_count =
      (pre ++ rbad :: post).length - 1 ∧
    (import_inventory_from_csv db2 (pre ++ rbad :: post)).2.error_count = 1 ∧
    (import_inventory_from_csv db2 (pre ++ rbad :: post)).2.errors.length = 1 ∧
    ∃ new : List InventoryItem,
      (import_inventory_from_csv db2 (pre ++ rbad :: post)).1.items =
        db2.items ++ new ∧
      new.length = (pre ++ rbad :: post).length - 1 := by
  have hfilter : (pre ++ rbad :: post).filter row_importable = pre ++ post := by
    rw [List.filter_append, List.filter_cons]
    rw [List.filter_eq_self.mpr (fun a ha => hok a (List.mem_append_left post ha)),
      List.filter_eq_self.mpr (fun a ha => hok a (List.mem_append_right pre ha))]
    simp [hbad]
  have hbadfilter :
      (pre ++ rbad :: post).filter (fun r => ! row_importable r) = [rbad] := by
    rw [List.filter_append, List.filter_cons]
    have hp : pre.filter (fun r => ! row_importable r) = [] := by
      rw [List.filter_eq_nil_iff]
      intro a ha
      simp [hok a (List.mem_append_left post ha)]
    have hq : post.filter (fun r => ! row_importable r) = [] := by
      rw [List.filter_eq_nil_iff]
      intro a ha
      simp [hok a (List.mem_append_right pre ha)]
    simp [hp, hq, hbad]
  obtain ⟨hsucc, herr, hmsg⟩ := import_counts (pre ++ rbad :: post) db2
  have hlen : (pre ++ rbad :: post).length = pre.length + post.length + 1 := by
    simp
    omega
  refine ⟨?_, ?_, ?_, ?_, ?_⟩
  · obtain ⟨r, hr, q, hq, hlt⟩ := hneg
    have hany : df.any (fun r => r.quantity.any (fun q => decide (q < 0))) = true := by
      rw [List.any_eq_true]
      refine ⟨r, hr, ?_⟩
      rw [hq]
      simpa using hlt
    simp [bulk_import, validate_inventory_csv, hany]
  · rw [hsucc, hfilter, hlen]
    simp
  · rw [herr, hbadfilter]
    simp
  · rw [hmsg, hbadfilter]
    simp
  · obtain ⟨new, h1, h2, h3⟩ := import_items_structure (pre ++ rbad :: post) db2
    refine ⟨new, h1, ?_⟩
    rw [h3, hfilter, hlen]
    simp

/-- C1 witness: the amended theorem applied with the concrete
negative-quantity batch (whole-batch rejection) and with the concrete
batch [valid row, NaN-quantity row] (counts 1 and 1); the final two
conjuncts evaluate the full pipeline on the NaN batch, which passes
validation and commits exactly the valid row. -/
theorem bulk_import_negative_rejects_whole_batch_witness :
    bulk_import emptyInventoryDB [csvRowValid, csvRowNegativeQty] =
      (emptyInventoryDB, BulkOutcome.rejected
        ("Negative values found in quantity, price, or min_stock columns")) ∧
    (import_inventory_from_csv emptyInventoryDB
      [csvRowValid, csvRowNanQty]).2.success_count = 1 ∧
    (import_inventory_from_csv emptyInventoryDB
      [csvRowValid, csvRowNanQty]).2.error_count = 1 ∧
    bulk_import emptyInventoryDB [csvRowValid, csvRowNanQty] =
      ((import_inventory_from_csv emptyInventoryDB [csvRowValid, csvRowNanQty]).1,
       BulkOutcome.imported ⟨1, 1, [("Error importing row")]⟩) ∧
    (bulk_import emptyInventoryDB [csvRowValid, csvRowNanQty]).1.items.map
      InventoryItem.name = [("Oil Filter")] := by
  have h := bulk_import_negative_rejects_whole_batch emptyInventoryDB
    [csvRowValid, csvRowNegativeQty]
    ⟨csvRowNegativeQty, by decide, -1, by decide, by decide⟩
    emptyInventoryDB [csvRowValid] [] csvRowNanQty (by decide) (by decide)
  exact ⟨h.1, h.2.1.trans (by decide), h.2.2.1, by decide, by decide⟩

/-- C2, counterexample: with a store holding only booking B9, setting
the status of the absent id BK-MISSING does not fail with a NotFound
error: the operation commits and reports success, leaving the store
unchanged. -/
theorem set_status_missing_id_counterexample :
    set_booking_status [bookingOther] ("BK-MISSING") ("Completed") =
      ([bookingOther], true, ("Booking status updated successfully!")) := by
  decide

/-- C2 (amended): SetStatus never fails with NotFound: it always reports
success. A booking whose id differs from the argument is kept unchanged;
the booking with the matching id is kept with only its status overwritten
by the supplied value, with no validation of the transition; and every
row of the resulting store is a row of the old store with at most the
status field changed, and changed only on a matching id. -/
theorem set_status_total_overwrite (bs : List Booking) (bid s : String) :
    (set_booking_status bs bid s).2.1 = true ∧
    (∀ b ∈ bs, ¬ b.booking_id = bid → b ∈ (set_booking_status bs bid s).1) ∧
    (∀ b ∈ bs, b.booking_id = bid → { b with status := s } ∈ (set_booking_status bs bid s).1) ∧
    ∀ b2 ∈ (set_booking_status bs bid s).1, ∃ b ∈ bs,
      b2.booking_id = b.booking_id ∧ b2.customer_name = b.customer_name ∧
      b2.vehicle_type = b.vehicle_type ∧ b2.vehicle_number = b.vehicle_number ∧
      b2.service_type = b.service_type ∧ b2.booking_date = b.booking_date ∧
      b2.time_slot = b.time_slot ∧ b2.description = b.description ∧
      (b2.status = b.status ∨ (b.booking_id = bid ∧ b2.status = s)) := by
  refine ⟨rfl, ?_, ?_, ?_⟩
  · intro b hb hne
    have heq : (if b.booking_id = bid then { b with status := s } else b) = b := if_neg hne
    exact heq ▸ List.mem_map_of_mem _ hb
  · intro b hb heqid
    have heq : (if b.booking_id = bid then { b with status := s } else b) =
        { b with status := s } := if_pos heqid
    exact heq ▸ List.mem_map_of_mem _ hb
  · intro b2 hb2
    obtain ⟨b, hb, hfb⟩ := List.mem_map.mp hb2
    by_cases h : b.booking_id = bid
    · rw [if_pos h] at hfb
      exact ⟨b, hb, by rw [← hfb]; exact ⟨rfl, rfl, rfl, rfl, rfl, rfl, rfl, rfl, Or.inr ⟨h, rfl⟩⟩⟩
    · rw [if_neg h] at hfb
      exact ⟨b, hb, by rw [← hfb]; exact ⟨rfl, rfl, rfl, rfl, rfl, rfl, rfl, rfl, Or.inl rfl⟩⟩

/-- C2 witness: the amended theorem at a one-booking store and a
matching id, together with the decided conclusion instances. -/
theorem set_status_total_overwrite_witness :
    (set_booking_status [bookingOther] ("B9") ("Completed")).2.1 = true ∧
    { bookingOther with status := ("Completed") } ∈
      (set_booking_status [bookingOther] ("B9") ("Completed")).1 :=
  ⟨(set_status_total_overwrite [bookingOther] ("B9") ("Completed")).1,
   (set_status_total_overwrite [bookingOther] ("B9") ("Completed")).2.2.1
     bookingOther (by decide) (by decide)⟩

/-- C3, counterexample: the Add Single Item form stores the
admin-selected status verbatim: with quantity 5 the stored status can be
`Low Stock`, so an insertion can store `Low Stock` and the stored status
is not the one derived from the quantity. -/
theorem single_add_low_stock_counterexample :
    ((add_single_item emptyInventoryDB ("Oil Filter") ("Filters") 5 10 2
        ("") ("Low Stock")).1.items.map
      (fun it => (it.status, it.quantity))) = [(("Low Stock"), 5)] := by
  decide

/-- C3 (amended): rows inserted by the bulk-import loop obey the derived
rule (on the non-negative quantities the validation admits):
`Out of Stock` iff quantity 0, `In Stock` otherwise, never `Low Stock`;
the single-item add path instead stores the admin-selected status field
verbatim. -/
theorem insert_status_rule_amended (db : InventoryDB) (df : List CsvRow)
    (hq : ∀ r ∈ df, r.quantity.all (fun q => decide (0 ≤ q)) = true)
    (nm ct : String) (q : Int) (p : Rat) (ms : Int) (ds st : String)
    (hnm : ¬ nm = "") (hct : ¬ ct = "") :
    (∀ it ∈ (import_inventory_from_csv db df).1.items.drop db.items.length,
        (it.status = "Out of Stock" ↔ it.quantity = 0) ∧
        (it.status = "In Stock" ↔ ¬ it.quantity = 0) ∧
        ¬ it.status = "Low Stock") ∧
    ((add_single_item db nm ct q p ms ds st).1.items.drop db.items.length).map
      InventoryItem.status = [st] := by
  constructor
  · obtain ⟨new, h1, h2, h3⟩ := import_items_structure df db
    rw [h1, List.drop_left]
    intro it hit
    obtain ⟨r, hr, rq, hqe, hq2, hs⟩ := h2 it hit
    have hge : 0 ≤ rq := by
      have hall := hq r hr
      rw [hqe] at hall
      simpa using hall
    rw [hs, hq2, derived_status]
    by_cases hpos : rq > 0
    · rw [if_pos hpos]
      refine ⟨?_, ?_, by decide⟩
      · constructor
        · intro habs
          exact absurd habs (by decide)
        · intro h0
          omega
      · constructor
        · intro _
          omega
        · intro _
          rfl
    · have h0 : rq = 0 := by omega
      rw [if_neg hpos, h0]
      refine ⟨?_, ?_, by decide⟩
      · simp
      · constructor
        · intro habs
          exact absurd habs (by decide)
        · intro hne
          exact absurd rfl hne
  · have hcond : ¬ (nm = "" ∨ ct = "") := by
      intro h
      rcases h with h | h
      · exact hnm h
      · exact hct h
    rw [add_single_item, if_neg hcond]
    simp [List.drop_left]

/-- C3 witness: the amended theorem at a concrete two-row batch (one
zero-quantity row, one positive row) and at a concrete single-item add
that selects `Low Stock`. -/
theorem insert_status_rule_amended_witness :
    (∀ it ∈ (import_inventory_from_csv emptyInventoryDB
        [csvRowZeroQty, csvRowValid]).1.items.drop emptyInventoryDB.items.length,
        (it.status = "Out of Stock" ↔ it.quantity = 0) ∧
        (it.status = "In Stock" ↔ ¬ it.quantity = 0) ∧
        ¬ it.status = "Low Stock") ∧
    ((add_single_item emptyInventoryDB ("Oil Filter") ("Filters") 5 10 2
        ("") ("Low Stock")).1.items.drop emptyInventoryDB.items.length).map
      InventoryItem.status = [("Low Stock")] :=
  insert_status_rule_amended emptyInventoryDB [csvRowZeroQty, csvRowValid]
    (by decide) ("Oil Filter") ("Filters") 5 10 2 ("") ("Low Stock")
    (by decide) (by decide)

/-- C4: the availability figure is the fixed capacity 3 minus the number
of existing bookings sharing the `(date, time_slot)` pair; after exactly
3 bookings for the pair it is at most 0; and the fully-booked error
branch of the page is taken exactly when the figure is at most 0. -/
theorem check_slot_availability_spec (bs : List Booking) (date slot : String) :
    check_slot_availability bs date slot =
      3 - ((bs.filter (fun b =>
        decide (b.booking_date = date ∧ b.time_slot = slot))).length : Int) ∧
    (slot_count bs date slot = 3 → check_slot_availability bs date slot ≤ 0) ∧
    (slot_fully_booked bs date slot = true ↔
      check_slot_availability bs date slot ≤ 0) := by
  refine ⟨rfl, ?_, ?_⟩
  · intro h
    simp [check_slot_availability, h]
  · simp only [slot_fully_booked, check_slot_availability, decide_eq_true_eq]
    omega

/-- C4 witness: the theorem at a store holding exactly 3 bookings of the
pair (2024-06-15, 09:00 AM). -/
theorem check_slot_availability_spec_witness :
    slot_count threeSlotBookings ("2024-06-15") ("09:00 AM") = 3 ∧
    check_slot_availability threeSlotBookings ("2024-06-15") ("09:00 AM") ≤ 0 :=
  ⟨by decide,
   (check_slot_availability_spec threeSlotBookings ("2024-06-15") ("09:00 AM")).2.1
     (by decide)⟩

/-- C5: the booking history listing returns a permutation of exactly the
bookings whose customer_name equals the argument, sorted by ascending
status rank (In Progress, Pending, Completed, Cancelled) with ties
broken by descending booking_date; on the concrete scenario of the spec
(creation order Completed, Pending, In Progress, Cancelled) the result
comes back In Progress, Pending, Completed, Cancelled. -/
theorem list_by_customer_spec (bs : List Booking) (name : String) :
    List.Perm (list_by_customer bs name)
      (bs.filter (fun b => decide (b.customer_name = name))) ∧
    (∀ b ∈ list_by_customer bs name, b.customer_name = name) ∧
    List.Sorted booking_order (list_by_customer bs name) ∧
    (list_by_customer historyBookings ("Asha")).map Booking.status =
      [("In Progress"), ("Pending"), ("Completed"), ("Cancelled")] := by
  refine ⟨List.perm_insertionSort _ _, ?_, List.sorted_insertionSort _ _, by decide⟩
  intro b hb
  have hmem : b ∈ bs.filter (fun b => decide (b.customer_name = name)) :=
    (List.perm_insertionSort booking_order _).mem_iff.mp hb
  exact of_decide_eq_true (List.mem_filter.mp hmem).2

/-- C5 witness: the theorem instantiated at the concrete four-booking
scenario. -/
theorem list_by_customer_spec_witness :
    (∀ b ∈ list_by_customer historyBookings ("Asha"), b.customer_name = ("Asha")) ∧
    (list_by_customer historyBookings ("Asha")).map Booking.status =
      [("In Progress"), ("Pending"), ("Completed"), ("Cancelled")] :=
  ⟨(list_by_customer_spec historyBookings ("Asha")).2.1,
   (list_by_customer_spec historyBookings ("Asha")).2.2.2⟩

/-- C6: each of the three booking-creation paths (customer booking form,
car service form, bike service form), on a generated id not already in
the store, appends exactly one booking whose status is the literal
`Pending` whatever the inputs are, whose id is the generated one, and
whose remaining fields are the supplied values verbatim, with the
selected service list joined by the fixed delimiter of the path. -/
theorem create_booking_pending_spec :
    (∀ (bs : List Booking) (gid cn vt vn : String) (sts : List String)
      (d ts pd : String), ¬ cn = "" → ¬ vn = "" → ¬ sts = ([] : List String) →
      (∀ b ∈ bs, ¬ b.booking_id = gid) →
      submit_booking_form bs gid cn vt vn sts d ts pd =
        (bs ++ [⟨gid, cn, vt, vn, String.intercalate (", ") sts, d, ts,
          ("Pending"), pd, none, none, none, none⟩], true)) ∧
    (∀ (bs : List Booking) (gid cn vn st d ts sd : String) (lsd : Option String)
      (lsk : Option Int) (si : List String) (an : String),
      (∀ b ∈ bs, ¬ b.booking_id = gid) →
      submit_car_booking bs gid cn vn st d ts sd lsd lsk si an =
        (bs ++ [⟨gid, cn, ("Car"), vn, st, d, ts, ("Pending"), sd, lsd, lsk,
          (if si = ([] : List String) then none
           else some (String.intercalate (",") si)), some an⟩], true)) ∧
    (∀ (bs : List Booking) (gid cn vn st d ts sd : String) (lsd : Option String)
      (lsk : Option Int) (si : List String) (an : String),
      (∀ b ∈ bs, ¬ b.booking_id = gid) →
      submit_bike_booking bs gid cn vn st d ts sd lsd lsk si an =
        (bs ++ [⟨gid, cn, ("Motorcycle"), vn, st, d, ts, ("Pending"), sd, lsd, lsk,
          (if si = ([] : List String) then none
           else some (String.intercalate (",") si)), some an⟩], true)) :=
  ⟨fun bs gid cn vt vn sts d ts pd h1 h2 h3 hf =>
    submit_booking_form_eq bs gid cn vt vn sts d ts pd h1 h2 h3 hf,
   fun bs gid cn vn st d ts sd lsd lsk si an hf =>
    submit_car_booking_eq bs gid cn vn st d ts sd lsd lsk si an hf,
   fun bs gid cn vn st d ts sd lsd lsk si an hf =>
    submit_bike_booking_eq bs gid cn vn st d ts sd lsd lsk si an hf⟩

/-- C6 witness: the customer-form path of the theorem at concrete
inputs, on an empty store. -/
theorem create_booking_pending_spec_witness :
    submit_booking_form [] ("BK20240601090000") ("Asha") ("Car") ("KA01")
      [("Oil Change"), ("Brake Service")] ("2024-06-01") ("09:00 AM") ("") =
      ([⟨"BK20240601090000", "Asha", "Car", "KA01",
        String.intercalate (", ") [("Oil Change"), ("Brake Service")],
        "2024-06-01", "09:00 AM", "Pending", "", none, none, none, none⟩], true) :=
  create_booking_pending_spec.1 [] ("BK20240601090000") ("Asha") ("Car") ("KA01")
    [("Oil Change"), ("Brake Service")] ("2024-06-01") ("09:00 AM") ("")
    (by decide) (by decide) (by decide) (by simp)

/-- C7: deleting an id absent from the inventory table reports "Item not
found" and leaves both tables unchanged; deleting an existing id appends
exactly one DELETE history row carrying the prior quantity and price as
old values and 0 as both new values, and removes exactly the rows with
that id, leaving the history otherwise intact. -/
theorem delete_item_spec (db : InventoryDB) (item_id : Nat) :
    (db.items.find? (fun it => decide (it.id = item_id)) = none →
      delete_inventory_item db item_id = (db, false, ("Item not found"))) ∧
    ∀ item, db.items.find? (fun it => decide (it.id = item_id)) = some item →
      delete_inventory_item db item_id =
        ({ items := db.items.filter (fun it => decide (¬ it.id = item_id)),
           history := db.history ++
             [⟨item_id, "DELETE", some item.quantity, some 0, some item.price, some 0⟩],
           nextId := db.nextId }, true, ("Item deleted successfully")) := by
  constructor
  · intro h
    simp [delete_inventory_item, h]
  · intro item h
    simp [delete_inventory_item, h]

/-- C7 witness: both branches of the theorem at a one-item store. -/
theorem delete_item_spec_witness :
    delete_inventory_item stockedDB 99 = (stockedDB, false, ("Item not found")) ∧
    delete_inventory_item stockedDB 1 =
      (⟨[], [⟨1, "DELETE", some 4, some 0, some 250, some 0⟩], 2⟩,
       true, ("Item deleted successfully")) := by
  have h1 := (delete_item_spec stockedDB 99).1 (by decide)
  have h2 := (delete_item_spec stockedDB 1).2
    ⟨1, "Oil Filter", "Filters", 4, 250, 2, "", "In Stock"⟩ (by decide)
  exact ⟨h1, h2.trans (by decide)⟩

/-- C8: registering a username that already exists in the identity store
fails with the duplicate-username message and returns the store
unchanged, so the existing record keeps its stored password digest, role
and email. -/
theorem register_duplicate_username_spec (users : List User)
    (gid username pw role : String) (email : Option String)
    (h : ∃ u ∈ users, u.username = username) :
    register_user users gid username pw role email =
      (users, false, ("Username already exists")) := by
  obtain ⟨u, hu, he⟩ := h
  have hany : users.any (fun u => decide (u.username = username)) = true :=
    List.any_eq_true.mpr ⟨u, hu, by simpa using he⟩
  simp [register_user, hany]

/-- C8 witness: Register("alice", "pw", "customer") succeeds on the empty
store, and the theorem applied to the resulting store shows
Register("alice", "pw2", "admin") fails with the duplicate-username
message and leaves the alice record unchanged. -/
theorem register_duplicate_username_spec_witness :
    register_user [] ("u1") ("alice") ("pw") ("customer") none =
      ([aliceUser], true, ("User registered successfully")) ∧
    register_user [aliceUser] ("u2") ("alice") ("pw2") ("admin") none =
      ([aliceUser], false, ("Username already exists")) :=
  ⟨by decide,
   register_duplicate_username_spec [aliceUser] ("u2") ("alice") ("pw2")
     ("admin") none ⟨aliceUser, by decide, by decide⟩⟩

/-- C9: clearing the inventory empties the history table and the items
table (the history delete is issued first), and the operation is
idempotent: clearing the cleared store returns the identical result. -/
theorem clear_inventory_spec (db : InventoryDB) :
    (clear_inventory db).1.items = [] ∧
    (clear_inventory db).1.history = [] ∧
    clear_inventory (clear_inventory db).1 = clear_inventory db :=
  ⟨rfl, rfl, rfl⟩

/-- C10: the booking form enforces no slot capacity: on any store,
including one already holding 3 or more bookings of the
`(booking_date, time_slot)` pair, a valid submission succeeds and raises
the count of bookings for that pair by one, so the per-slot count is
unbounded; the availability check is display-only. -/
theorem booking_capacity_not_enforced (bs : List Booking)
    (gid cn vt vn : String) (sts : List String) (d ts pd : String)
    (h1 : ¬ cn = "") (h2 : ¬ vn = "") (h3 : ¬ sts = ([] : List String))
    (hfresh : ∀ b ∈ bs, ¬ b.booking_id = gid) :
    (submit_booking_form bs gid cn vt vn sts d ts pd).2 = true ∧
    slot_count (submit_booking_form bs gid cn vt vn sts d ts pd).1 d ts =
      slot_count bs d ts + 1 ∧
    (submit_booking_form bs gid cn vt vn sts d ts pd).1.getLast? =
      some ⟨gid, cn, vt, vn, String.intercalate (", ") sts, d, ts,
        ("Pending"), pd, none, none, none, none⟩ := by
  rw [submit_booking_form_eq bs gid cn vt vn sts d ts pd h1 h2 h3 hfresh]
  refine ⟨rfl, ?_, by simp⟩
  simp [slot_count, List.filter_append]

/-- C10 witness: the theorem at a store already holding 3 bookings of
the pair (2024-06-15, 09:00 AM): the fourth submission succeeds and the
count reaches 4. -/
theorem booking_capacity_not_enforced_witness :
    slot_count threeSlotBookings ("2024-06-15") ("09:00 AM") = 3 ∧
    (submit_booking_form threeSlotBookings ("BK4") ("Dana") ("Car") ("KA04")
      [("Oil Change")] ("2024-06-15") ("09:00 AM") ("")).2 = true ∧
    slot_count (submit_booking_form threeSlotBookings ("BK4") ("Dana") ("Car")
      ("KA04") [("Oil Change")] ("2024-06-15") ("09:00 AM") ("")).1
      ("2024-06-15") ("09:00 AM") = 4 := by
  have h := booking_capacity_not_enforced threeSlotBookings ("BK4") ("Dana")
    ("Car") ("KA04") [("Oil Change")] ("2024-06-15") ("09:00 AM") ("")
    (by decide) (by decide) (by decide) (by decide)
  refine ⟨by decide, h.1, ?_⟩
  rw [h.2.1]
  decide
